import Mathlib

/-!
A shallow embedding of the GLib client stub generator
(`tools/glib-client-gen.py`) and proofs about the properties of its
output.  The generator reads a D-Bus introspection schema (a DOM of
`node` elements, each holding exactly one `interface` element with
`method` and `signal` children) and emits a declarations artifact (the
`.h` buffer) and a definitions artifact (the `.c` buffer).

XML elements are embedded as records of the attributes and children the
generator reads; `getAttribute` on a missing attribute yields the empty
string, so every attribute field is a plain `String`.  The helper module
`libglibcodegen` (imported by the generator but not part of the sources
here) is modelled from the specification, as marked on each such
definition.  Fallible steps (an unknown wire type, the
one-interface-per-node assertion) are embedded with `Option`.
-/

/-- An `arg` element as the generator reads it: attributes `name`,
`direction`, `type` and `tp:type`, each the empty string when absent. -/
structure ArgXml where
  name : String
  direction : String
  type : String
  tp_type : String
  deriving DecidableEq, Repr

/-- A `method` element: its `name` attribute and its `arg` descendants in
document order. -/
structure MethodXml where
  name : String
  args : List ArgXml
  deriving DecidableEq, Repr

/-- A `signal` element: its `name` attribute and its `arg` descendants in
document order. -/
structure SignalXml where
  name : String
  args : List ArgXml
  deriving DecidableEq, Repr

/-- An `interface` element: its `signal` and `method` children in document
order. -/
structure InterfaceXml where
  signals : List SignalXml
  methods : List MethodXml
  deriving DecidableEq, Repr

/-- A `node` element: its `name` attribute and its `interface` children. -/
structure NodeXml where
  name : String
  interfaces : List InterfaceXml
  deriving DecidableEq, Repr

/-- The parsed schema document: the `node` elements in document order. -/
structure DomXml where
  nodes : List NodeXml
  deriving DecidableEq, Repr

/-- Modelled from the spec: a `TypeMapping` table entry, the tuple
returned by `libglibcodegen.type_to_gtype` and unpacked by the generator
as `ctype, gtype, marshaller, pointer`: native storage type,
marshalling-type tag, marshaller name, pass-by-pointer flag. -/
structure GTypeInfo where
  ctype : String
  gtype : String
  marshaller : String
  pointer : Bool
  deriving DecidableEq, Repr

/-- Modelled from the spec: `libglibcodegen.type_to_gtype`, the Type
Mapping Table.  It covers the primitive wire signatures used by the
protocol (integers of multiple widths, booleans, strings,
object-path-like strings, byte arrays) and records per entry the native
storage type (with a trailing space for by-value types so that
concatenation with the argument name is well formed), the
marshalling-type tag and whether the native representation is passed by
pointer.  A signature absent from the table is a hard failure
(`UnknownTypeError`), embedded as `none`, never a silent default. -/
def type_to_gtype (t : String) : Option GTypeInfo :=
  if t = "y" then some ⟨"guchar ", "G_TYPE_UCHAR", "UCHAR", false⟩
  else if t = "b" then some ⟨"gboolean ", "G_TYPE_BOOLEAN", "BOOLEAN", false⟩
  else if t = "n" then some ⟨"gint ", "G_TYPE_INT", "INT", false⟩
  else if t = "q" then some ⟨"guint ", "G_TYPE_UINT", "UINT", false⟩
  else if t = "i" then some ⟨"gint ", "G_TYPE_INT", "INT", false⟩
  else if t = "u" then some ⟨"guint ", "G_TYPE_UINT", "UINT", false⟩
  else if t = "x" then some ⟨"gint64 ", "G_TYPE_INT64", "INT64", false⟩
  else if t = "t" then some ⟨"guint64 ", "G_TYPE_UINT64", "UINT64", false⟩
  else if t = "d" then some ⟨"gdouble ", "G_TYPE_DOUBLE", "DOUBLE", false⟩
  else if t = "s" then some ⟨"gchar *", "G_TYPE_STRING", "STRING", true⟩
  else if t = "o" then some ⟨"gchar *", "DBUS_TYPE_G_OBJECT_PATH", "BOXED", true⟩
  else if t = "ay" then some ⟨"GArray *", "DBUS_TYPE_G_UCHAR_ARRAY", "BOXED", true⟩
  else none

/-- Python `str.lower()` restricted to the ASCII identifiers handled
here: character-wise lowercasing. -/
def py_lower (s : String) : String :=
  (s.data.map Char.toLower).asString

/-- Python `str.upper()` restricted to the ASCII identifiers handled
here: character-wise uppercasing. -/
def py_upper (s : String) : String :=
  (s.data.map Char.toUpper).asString

/-- Python `name.replace('/', '')`: every slash is removed. -/
def py_replace_slash (s : String) : String :=
  (s.data.filter (fun c => c ≠ '/')).asString

/-- Interior step of `camelcase_to_lower`: an underscore is inserted
before each remaining uppercase letter and the letter is lowercased. -/
def camel_tail : List Char → List Char
  | [] => []
  | c :: rest =>
      if c.isUpper then '_' :: c.toLower :: camel_tail rest
      else c :: camel_tail rest

/-- Modelled from the spec: `libglibcodegen.camelcase_to_lower`, the
Identifier Normalizer's CamelCase to lower_snake_case transform — a
deterministic, pure, total function: the leading character is
lowercased, and every later uppercase letter is lowercased with an
underscore inserted before it. -/
def camelcase_to_lower (s : String) : String :=
  match s.data with
  | [] => ""
  | c :: rest => (c.toLower :: camel_tail rest).asString

/-- Case-sensitive lexicographic comparison of character lists. -/
def lexLe : List Char → List Char → Bool
  | [], _ => true
  | _ :: _, [] => false
  | a :: as, b :: bs =>
      if a < b then true
      else if a = b then lexLe as bs
      else false

/-- Case-sensitive lexicographic comparison of strings. -/
def strLe (a b : String) : Bool :=
  lexLe a.data b.data

/-- Modelled from the spec: `libglibcodegen.cmp_by_name`, the comparator
passed to the sort over interface-bearing nodes — a case-sensitive
lexicographic comparison of the nodes' `name` attributes. -/
def cmp_by_name (n1 n2 : NodeXml) : Bool :=
  strLe n1.name n2.name

/-- The ordering relation induced by `cmp_by_name`. -/
def node_le (n1 n2 : NodeXml) : Prop :=
  cmp_by_name n1 n2 = true

instance : DecidableRel node_le :=
  fun n1 n2 => inferInstanceAs (Decidable (cmp_by_name n1 n2 = true))

/-- Python `list.sort(cmp_by_name)` (source line 203): a stable sort of
the node list under the `cmp_by_name` comparator. -/
def sort_nodes (l : List NodeXml) : List NodeXml :=
  l.insertionSort node_le

/-- The argument-classification loop of `Generator.do_method` (source
lines 64-87).  Walking the `arg` elements in document order with the
`ret_count` counter: an argument whose `direction` is not literally
`out` is an in-argument named `in_` + name; an out-argument is named
`out_` + name, or `out` + counter when its name is empty, the counter
being incremented only in that case.  Each argument's wire type is
resolved through `type_to_gtype`; an unknown type aborts.  Returns the
`(in_args, out_args)` lists of `(name, info, tp_type)` tuples. -/
def do_method_args : List ArgXml → Nat →
    Option (List (String × GTypeInfo × String) × List (String × GTypeInfo × String))
  | [], _ => some ([], [])
  | arg :: rest, ret_count =>
      let name :=
        if arg.direction ≠ "out" then "in_" ++ arg.name
        else if arg.name = "" then "out" ++ Nat.repr ret_count
        else "out_" ++ arg.name
      let next_count :=
        if arg.direction = "out" ∧ arg.name = "" then ret_count + 1 else ret_count
      match type_to_gtype arg.type with
      | none => none
      | some info =>
          match do_method_args rest next_count with
          | none => none
          | some (in_args, out_args) =>
              if arg.direction ≠ "out" then
                some ((name, info, arg.tp_type) :: in_args, out_args)
              else
                some (in_args, (name, info, arg.tp_type) :: out_args)

/-- `Generator.do_method` (source lines 57-146): the synchronous stub
for one method.  Returns the lines appended to the header buffer and to
the body buffer.  The body's opening line contains an embedded newline,
exactly as the source writes it. -/
def do_method (prefix_lc : String) (iface : String) (method : MethodXml) :
    Option (List String × List String) :=
  let iface_lc := py_lower iface
  let member := method.name
  let member_lc := camelcase_to_lower member
  match do_method_args method.args 0 with
  | none => none
  | some (in_args, out_args) =>
      let stub_name := prefix_lc ++ "_" ++ iface_lc ++ "_block_on_" ++ member_lc
      let in_lines := in_args.map (fun e =>
        "    " ++ (if e.2.1.pointer then "const " else "") ++ e.2.1.ctype ++ e.1 ++ ",")
      let out_lines := out_args.map (fun e =>
        "    " ++ e.2.1.ctype ++ "*" ++ e.1 ++ ",")
      let in_call := in_args.map (fun e =>
        "      " ++ e.2.1.gtype ++ ", " ++ e.1 ++ ",")
      let out_call := out_args.map (fun e =>
        "      " ++ e.2.1.gtype ++ ", " ++ e.1 ++ ",")
      some (
        ["gboolean " ++ stub_name ++ " (gpointer *proxy,"]
          ++ in_lines ++ out_lines
          ++ ["    GError **error);", "", ""],
        ["gboolean\n" ++ stub_name ++ " (gpointer *proxy,"]
          ++ in_lines ++ out_lines
          ++ ["    GError **error)",
              "\x7b",
              "  DBusGProxy *iface = tp_proxy_get_interface (",
              "      TP_PROXY (proxy),",
              "      TP_IFACE_QUARK_" ++ py_upper iface_lc ++ ",",
              "      error);",
              "",
              "  if (iface == NULL)",
              "    return FALSE;",
              "",
              "  return dbus_g_proxy_call (iface, \"" ++ member ++ "\", error,",
              "      /* in arguments */"]
          ++ in_call
          ++ ["      G_TYPE_INVALID,", "      /* out arguments */"]
          ++ out_call
          ++ ["      G_TYPE_INVALID);", "\x7d", "", ""])

/-- `Generator.do_signal_add` (source lines 148-163): the header lines
registering one signal — the registration call with the signal's name,
one line per argument's marshalling-type tag in order, and the
`G_TYPE_INVALID` sentinel. -/
def do_signal_add (sig : SignalXml) : Option (List String) :=
  match sig.args.mapM (fun a => type_to_gtype a.type) with
  | none => none
  | some infos =>
      some (("  dbus_g_proxy_add_signal (proxy, \"" ++ sig.name ++ "\",")
        :: (infos.map (fun info => "      " ++ info.gtype ++ ",")
            ++ ["      G_TYPE_INVALID);"]))

/-- `node.getElementsByTagName('signal')`: the signal descendants of a
node in document order. -/
def node_signals (node : NodeXml) : List SignalXml :=
  (node.interfaces.map InterfaceXml.signals).flatten

/-- `node.getElementsByTagName('method')`: the method descendants of a
node in document order. -/
def node_methods (node : NodeXml) : List MethodXml :=
  (node.interfaces.map InterfaceXml.methods).flatten

/-- `Generator.do_interface` (source lines 165-190): asserts that the
node holds exactly one interface element, strips slashes from the node
name, emits the static-inline signal-registration function into the
header only, and then each method's stub. -/
def do_interface (prefix_lc : String) (node : NodeXml) :
    Option (List String × List String) :=
  if node.interfaces.length = 1 then
    let name := py_replace_slash node.name
    match (node_signals node).mapM do_signal_add with
    | none => none
    | some sig_blocks =>
        match (node_methods node).mapM (do_method prefix_lc name) with
        | none => none
        | some method_pairs =>
            some (
              ["static inline void",
               prefix_lc ++ "_add_signals_for_" ++ py_lower name ++ " (DBusGProxy *proxy)",
               "\x7b"]
                ++ sig_blocks.flatten
                ++ ["\x7d", "", ""]
                ++ (method_pairs.map Prod.fst).flatten,
              (method_pairs.map Prod.snd).flatten)
  else none

/-- `Generator.__call__` (source lines 192-209): the whole transform.
The fixed include lines open the header, the body opens by including the
header by basename, the nodes are sorted with `cmp_by_name`, and each
node's interface is emitted in that order.  Returns the header and body
line buffers. -/
def generate (dom : DomXml) (prefix_arg basename : String) :
    Option (List String × List String) :=
  let prefix_lc := py_lower prefix_arg
  let ifaces := sort_nodes dom.nodes
  match ifaces.mapM (do_interface prefix_lc) with
  | none => none
  | some pairs =>
      some (
        ["#include <dbus/dbus-glib.h>",
         "#include <telepathy-glib/proxy.h>",
         "#include <telepathy-glib/interfaces.h>",
         ""] ++ (pairs.map Prod.fst).flatten,
        ["#include \"" ++ basename ++ ".h\"", ""] ++ (pairs.map Prod.snd).flatten)

/-- The two artifacts as written to disk (source lines 208-209): the
line buffers joined with newlines, header first, body second. -/
def generated_artifacts (dom : DomXml) (prefix_arg basename : String) :
    Option (String × String) :=
  (generate dom prefix_arg basename).map
    (fun p => (String.intercalate "\n" p.1, String.intercalate "\n" p.2))

/-- The positional call payload of one method, read off the emitted
`dbus_g_proxy_call` lines with the sentinels elided: the
`(marshalling tag, resolved name)` pairs of the in-arguments in order,
then of the out-arguments in order. -/
def call_payload (args : List ArgXml) : Option (List (String × String)) :=
  (do_method_args args 0).map
    (fun p => (p.1 ++ p.2).map (fun e => (e.2.1.gtype, e.1)))

/-- Applying a permutation, presented as the list of source indices, to
a list: entry `i` of the result is entry `σ i` of the argument. -/
def applyPerm {α : Type} (σ : List Nat) (l : List α) : List α :=
  σ.filterMap l.get?

/-! ## Characterizations of the argument-classification loop -/

/-- The table entry used as an `Option.getD` default in statements; it
never occurs for a resolvable wire type. -/
def default_info : GTypeInfo := ⟨"", "", "", false⟩

/-- The resolved table entry of an argument's wire type. -/
def arg_info (a : ArgXml) : GTypeInfo :=
  (type_to_gtype a.type).getD default_info

/-- The `(name, info, tp_type)` tuple built for an in-argument. -/
def in_entry (a : ArgXml) : String × GTypeInfo × String :=
  ("in_" ++ a.name, arg_info a, a.tp_type)

/-- The out-argument entries built by the classification loop from
counter value `k`: a named out-argument contributes `out_` + name, an
unnamed one contributes `out` + counter and bumps the counter. -/
def out_spec : List ArgXml → Nat → List (String × GTypeInfo × String)
  | [], _ => []
  | a :: rest, k =>
      if a.direction = "out" then
        if a.name = "" then
          ("out" ++ Nat.repr k, arg_info a, a.tp_type) :: out_spec rest (k + 1)
        else
          ("out_" ++ a.name, arg_info a, a.tp_type) :: out_spec rest k
      else out_spec rest k

theorem do_method_args_split : ∀ (l : List ArgXml) (k : Nat),
    (∀ a ∈ l, (type_to_gtype a.type).isSome) →
    do_method_args l k =
      some ((l.filter (fun a => a.direction != "out")).map in_entry, out_spec l k)
  | [], k, _ => by simp [do_method_args, out_spec]
  | arg :: rest, k, h => by
      have harg : (type_to_gtype arg.type).isSome :=
        h arg (List.mem_cons_self _ _)
      obtain ⟨info, hinfo⟩ := Option.isSome_iff_exists.mp harg
      have hrest : ∀ a ∈ rest, (type_to_gtype a.type).isSome :=
        fun a ha => h a (List.mem_cons_of_mem _ ha)
      by_cases hd : arg.direction = "out"
      · by_cases hn : arg.name = ""
        · have ih := do_method_args_split rest (k + 1) hrest
          simp [do_method_args, out_spec, hinfo, hd, hn, ih, in_entry, arg_info,
            List.filter_cons]
        · have ih := do_method_args_split rest k hrest
          simp [do_method_args, out_spec, hinfo, hd, hn, ih, in_entry, arg_info,
            List.filter_cons]
      · have ih := do_method_args_split rest k hrest
        simp [do_method_args, out_spec, hinfo, hd, ih, in_entry, arg_info,
          List.filter_cons]

theorem out_spec_filter : ∀ (l : List ArgXml) (k : Nat),
    out_spec l k = out_spec (l.filter (fun a => a.direction == "out")) k
  | [], _ => by simp [out_spec]
  | a :: rest, k => by
      by_cases hd : a.direction = "out"
      · by_cases hn : a.name = ""
        · simp [out_spec, List.filter_cons, hd, hn, out_spec_filter rest (k + 1)]
        · simp [out_spec, List.filter_cons, hd, hn, out_spec_filter rest k]
      · simp [out_spec, List.filter_cons, hd, out_spec_filter rest k]

theorem out_spec_length : ∀ (l : List ArgXml) (k : Nat),
    (∀ a ∈ l, a.direction = "out") → (out_spec l k).length = l.length
  | [], _, _ => by simp [out_spec]
  | a :: rest, k, h => by
      have hd : a.direction = "out" := h a (List.mem_cons_self _ _)
      have hrest : ∀ x ∈ rest, x.direction = "out" :=
        fun x hx => h x (List.mem_cons_of_mem _ hx)
      by_cases hn : a.name = ""
      · simp [out_spec, hd, hn, out_spec_length rest (k + 1) hrest]
      · simp [out_spec, hd, hn, out_spec_length rest k hrest]

theorem out_spec_get? : ∀ (l : List ArgXml),
    (∀ a ∈ l, a.direction = "out") →
    ∀ (k i : Nat) (a : ArgXml), l.get? i = some a →
    (out_spec l k).get? i =
      some (if a.name = "" then
          ("out" ++ Nat.repr (k + ((l.take i).filter (fun x => x.name == "")).length),
            arg_info a, a.tp_type)
        else ("out_" ++ a.name, arg_info a, a.tp_type))
  | [], _, k, i, a, ha => by simp at ha
  | b :: rest, h, k, i, a, ha => by
      have hd : b.direction = "out" := h b (List.mem_cons_self _ _)
      have hrest : ∀ x ∈ rest, x.direction = "out" :=
        fun x hx => h x (List.mem_cons_of_mem _ hx)
      cases i with
      | zero =>
          have hab : a = b := by simpa using ha.symm
          subst hab
          by_cases hn : a.name = ""
          · simp [out_spec, hd, hn]
          · simp [out_spec, hd, hn]
      | succ j =>
          have ha' : rest.get? j = some a := by simpa using ha
          by_cases hn : b.name = ""
          · have ih := out_spec_get? rest hrest (k + 1) j a ha'
            rw [List.get?_eq_getElem?] at ih
            have harith : ∀ n : Nat, k + 1 + n = k + (n + 1) := fun n => by omega
            simp [out_spec, hd, hn, ih, List.filter_cons, harith]
          · have ih := out_spec_get? rest hrest k j a ha'
            rw [List.get?_eq_getElem?] at ih
            simp [out_spec, hd, hn, ih, List.filter_cons]

theorem filter_take_lt {α : Type} (p : α → Bool) (l : List α) (i j : Nat) (hij : i < j)
    (a : α) (ha : l.get? i = some a) (hpa : p a = true) :
    ((l.take i).filter p).length < ((l.take j).filter p).length := by
  have hsucc : l.take (i + 1) = l.take i ++ [a] := by
    rw [List.take_succ]
    rw [← List.get?_eq_getElem?, ha]
    rfl
  have hlen1 : ((l.take (i + 1)).filter p).length = ((l.take i).filter p).length + 1 := by
    rw [hsucc, List.filter_append]
    simp [hpa]
  have htk : l.take (i + 1) = (l.take j).take (i + 1) := by
    rw [List.take_take]
    congr 1
    omega
  have hsub : ((l.take (i + 1)).filter p).length ≤ ((l.take j).filter p).length := by
    rw [htk]
    exact ((List.take_sublist _ _).filter p).length_le
  omega

theorem filter_in_append (ins outs : List ArgXml)
    (hin : ∀ a ∈ ins, a.direction ≠ "out")
    (hout : ∀ a ∈ outs, a.direction = "out") :
    (ins ++ outs).filter (fun a => a.direction != "out") = ins := by
  rw [List.filter_append]
  have h1 : ins.filter (fun a => a.direction != "out") = ins :=
    List.filter_eq_self.mpr (fun a ha => by simp [hin a ha])
  have h2 : outs.filter (fun a => a.direction != "out") = [] := by
    simp only [List.filter_eq_nil_iff]
    intro a ha
    simp [hout a ha]
  rw [h1, h2, List.append_nil]

theorem out_spec_append_skip : ∀ (ins outs : List ArgXml) (k : Nat),
    (∀ a ∈ ins, a.direction ≠ "out") →
    out_spec (ins ++ outs) k = out_spec outs k
  | [], _, _, _ => by simp
  | a :: rest, outs, k, hin => by
      have hd : a.direction ≠ "out" := hin a (List.mem_cons_self _ _)
      have hrest : ∀ x ∈ rest, x.direction ≠ "out" :=
        fun x hx => hin x (List.mem_cons_of_mem _ hx)
      simp [out_spec, hd, out_spec_append_skip rest outs k hrest]

theorem out_spec_named : ∀ (outs : List ArgXml) (k : Nat),
    (∀ a ∈ outs, a.direction = "out" ∧ a.name ≠ "") →
    out_spec outs k = outs.map (fun a => ("out_" ++ a.name, arg_info a, a.tp_type))
  | [], _, _ => by simp [out_spec]
  | a :: rest, k, h => by
      have hd := (h a (List.mem_cons_self _ _)).1
      have hn := (h a (List.mem_cons_self _ _)).2
      have hrest : ∀ x ∈ rest, x.direction = "out" ∧ x.name ≠ "" :=
        fun x hx => h x (List.mem_cons_of_mem _ hx)
      simp [out_spec, hd, hn, out_spec_named rest k hrest]

theorem mem_applyPerm {α : Type} {σ : List Nat} {l : List α} {x : α}
    (h : x ∈ applyPerm σ l) : x ∈ l := by
  obtain ⟨i, _, hget⟩ := List.mem_filterMap.mp h
  exact List.get?_mem hget

theorem applyPerm_map {α β : Type} (f : α → β) (σ : List Nat) (l : List α) :
    applyPerm σ (l.map f) = (applyPerm σ l).map f := by
  induction σ with
  | nil => rfl
  | cons i σ ih =>
      simp only [applyPerm, List.filterMap_cons] at ih ⊢
      rw [List.get?_eq_getElem?, List.get?_eq_getElem?, List.getElem?_map]
      cases h : l[i]? with
      | none => simpa [h] using ih
      | some a => simpa [h] using congrArg (f a :: ·) ih

theorem call_payload_split (ins outs : List ArgXml)
    (hres : ∀ a ∈ ins ++ outs, (type_to_gtype a.type).isSome)
    (hin : ∀ a ∈ ins, a.direction ≠ "out")
    (hout : ∀ a ∈ outs, a.direction = "out" ∧ a.name ≠ "") :
    call_payload (ins ++ outs) =
      some (ins.map (fun a => ((arg_info a).gtype, "in_" ++ a.name))
        ++ outs.map (fun a => ((arg_info a).gtype, "out_" ++ a.name))) := by
  unfold call_payload
  rw [do_method_args_split (ins ++ outs) 0 hres]
  rw [filter_in_append ins outs hin (fun a ha => (hout a ha).1)]
  rw [out_spec_append_skip ins outs 0 hin]
  rw [out_spec_named outs 0 hout]
  simp [Function.comp_def, in_entry]

theorem lexLe_total : ∀ (a b : List Char), lexLe a b = true ∨ lexLe b a = true
  | [], _ => Or.inl rfl
  | _ :: _, [] => Or.inr rfl
  | a :: as, b :: bs => by
      rcases lt_trichotomy a b with hab | hab | hab
      · left
        simp [lexLe, hab]
      · subst hab
        rcases lexLe_total as bs with h | h
        · left
          simp [lexLe, h]
        · right
          simp [lexLe, h]
      · right
        simp [lexLe, hab]

theorem lexLe_trans : ∀ (a b c : List Char),
    lexLe a b = true → lexLe b c = true → lexLe a c = true
  | [], _, _, _, _ => rfl
  | _ :: _, [], _, hab, _ => by simp [lexLe] at hab
  | _ :: _, _ :: _, [], _, hbc => by simp [lexLe] at hbc
  | a :: as, b :: bs, c :: cs, hab, hbc => by
      by_cases h1 : a < b
      · by_cases h2 : b < c
        · simp [lexLe, lt_trans h1 h2]
        · by_cases h3 : b = c
          · subst h3
            simp [lexLe, h1]
          · simp [lexLe, h2, h3] at hbc
      · by_cases h3 : a = b
        · subst h3
          by_cases h2 : a < c
          · simp [lexLe, h2]
          · by_cases h4 : a = c
            · subst h4
              simp [lexLe, h1] at hab
              simp [lexLe, h2] at hbc ⊢
              exact lexLe_trans as bs cs hab hbc
            · simp [lexLe, h2, h4] at hbc
        · simp [lexLe, h1, h3] at hab

instance : IsTotal NodeXml node_le :=
  ⟨fun n1 n2 => lexLe_total n1.name.data n2.name.data⟩

instance : IsTrans NodeXml node_le :=
  ⟨fun _ _ _ h1 h2 => lexLe_trans _ _ _ h1 h2⟩

/-! ## The claims -/

/-- Claim C1: determinism of the whole transform — for every fixed
schema input, prefix and basename, two generation runs produce
byte-identical declarations (header) and definitions (body)
artifacts. -/
theorem claim_C1_determinism (dom : DomXml) (prefix_arg basename : String)
    (r1 r2 : Option (String × String))
    (h1 : r1 = generated_artifacts dom prefix_arg basename)
    (h2 : r2 = generated_artifacts dom prefix_arg basename) :
    r1 = r2 :=
  h1.trans h2.symm

theorem claim_C1_determinism_witness :
    generated_artifacts
        ⟨[⟨"Example", [⟨[], [⟨"DoThing", [⟨"value", "in", "i", ""⟩, ⟨"", "out", "s", ""⟩]⟩]⟩]⟩]⟩
        "prefix" "basename" =
      generated_artifacts
        ⟨[⟨"Example", [⟨[], [⟨"DoThing", [⟨"value", "in", "i", ""⟩, ⟨"", "out", "s", ""⟩]⟩]⟩]⟩]⟩
        "prefix" "basename" :=
  claim_C1_determinism
    ⟨[⟨"Example", [⟨[], [⟨"DoThing", [⟨"value", "in", "i", ""⟩, ⟨"", "out", "s", ""⟩]⟩]⟩]⟩]⟩
    "prefix" "basename" _ _ rfl rfl

/-- Claim C2: before emission the interface-bearing nodes are sorted by
the stable case-sensitive lexicographic comparator on name (the sorted
sequence is ordered under `node_le` and is a permutation of the input
sequence), and a schema holding interfaces named Zeta, Alpha, Mu in that
source order is emitted in the order Alpha, Mu, Zeta. -/
theorem claim_C2_interface_order :
    (∀ dom : DomXml, (sort_nodes dom.nodes).Pairwise node_le ∧
      (sort_nodes dom.nodes).Perm dom.nodes) ∧
    generate ⟨[⟨"Zeta", [⟨[], []⟩]⟩, ⟨"Alpha", [⟨[], []⟩]⟩, ⟨"Mu", [⟨[], []⟩]⟩]⟩
        "prefix" "basename" =
      some (["#include <dbus/dbus-glib.h>",
             "#include <telepathy-glib/proxy.h>",
             "#include <telepathy-glib/interfaces.h>",
             "",
             "static inline void",
             "prefix_add_signals_for_alpha (DBusGProxy *proxy)",
             "\x7b", "\x7d", "", "",
             "static inline void",
             "prefix_add_signals_for_mu (DBusGProxy *proxy)",
             "\x7b", "\x7d", "", "",
             "static inline void",
             "prefix_add_signals_for_zeta (DBusGProxy *proxy)",
             "\x7b", "\x7d", "", ""],
            ["#include \"basename.h\"", ""]) := by
  constructor
  · intro dom
    exact ⟨List.sorted_insertionSort node_le dom.nodes,
      List.perm_insertionSort node_le dom.nodes⟩
  · decide

/-- Claim C9: an argument is classified as an output exactly when its
direction attribute literally equals out; any other value, including the
empty string read for an absent attribute, classifies it as an input
with resolved name `in_` + name, and no structural error is raised. -/
theorem claim_C9_direction_classification (l : List ArgXml)
    (h : ∀ a ∈ l, (type_to_gtype a.type).isSome) :
    ∃ outs, do_method_args l 0 =
        some ((l.filter (fun a => a.direction != "out")).map
          (fun a => ("in_" ++ a.name, arg_info a, a.tp_type)), outs) ∧
      outs.length = (l.filter (fun a => a.direction == "out")).length := by
  refine ⟨out_spec l 0, ?_, ?_⟩
  · rw [do_method_args_split l 0 h]
    rfl
  · rw [out_spec_filter l 0]
    exact out_spec_length _ 0 (fun a ha => by
      have hmem := List.mem_filter.mp ha
      simpa using hmem.2)

theorem claim_C9_direction_classification_witness :
    ∃ outs : List (String × GTypeInfo × String),
      do_method_args ([⟨"p", "", "u", ""⟩, ⟨"r", "out", "s", ""⟩] : List ArgXml) 0 =
        some ((([⟨"p", "", "u", ""⟩, ⟨"r", "out", "s", ""⟩] : List ArgXml).filter
            (fun a => a.direction != "out")).map
          (fun a => ("in_" ++ a.name, arg_info a, a.tp_type)), outs) ∧
      outs.length =
        (([⟨"p", "", "u", ""⟩, ⟨"r", "out", "s", ""⟩] : List ArgXml).filter
          (fun a => a.direction == "out")).length :=
  claim_C9_direction_classification
    [⟨"p", "", "u", ""⟩, ⟨"r", "out", "s", ""⟩] (by decide)

/-- Claim C10 (implicit): every in-argument's resolved parameter name is
`in_` + rawName even when rawName is empty, so two unnamed in-arguments
in one method both resolve to the identical name `in_`; the no-collision
numbering applies only to unnamed out-arguments. -/
theorem claim_C10_in_name_collision (l : List ArgXml)
    (ins outs : List (String × GTypeInfo × String))
    (h : ∀ a ∈ l, (type_to_gtype a.type).isSome)
    (heq : do_method_args l 0 = some (ins, outs)) :
    ins.map Prod.fst =
      (l.filter (fun a => a.direction != "out")).map (fun a => "in_" ++ a.name) := by
  rw [do_method_args_split l 0 h] at heq
  have hpair := Option.some.inj heq
  have hins : ins = (l.filter (fun a => a.direction != "out")).map in_entry :=
    (congrArg Prod.fst hpair).symm
  rw [hins, List.map_map]
  rfl

theorem claim_C10_in_name_collision_witness :
    ([("in_", (⟨"guint ", "G_TYPE_UINT", "UINT", false⟩ : GTypeInfo), ""),
      ("in_", (⟨"gchar *", "G_TYPE_STRING", "STRING", true⟩ : GTypeInfo), "")].map
        Prod.fst) = ["in_", "in_"] :=
  (claim_C10_in_name_collision [⟨"", "", "u", ""⟩, ⟨"", "", "s", ""⟩]
    [("in_", ⟨"guint ", "G_TYPE_UINT", "UINT", false⟩, ""),
     ("in_", ⟨"gchar *", "G_TYPE_STRING", "STRING", true⟩, "")] []
    (by decide) (by decide)).trans (by decide)

/-- Claim C6: every generated stub's parameter list is all in-arguments
in schema order (qualified `const` exactly when the mapping's pointer
flag is set, by value otherwise), then all out-arguments in schema order
as pointer parameters (a star added to the storage type regardless of
the pointer flag), then a single trailing GError error-output parameter,
identically in the header declaration and the body definition. -/
theorem claim_C6_param_shape (prefix_lc iface : String) (method : MethodXml)
    (ins outs : List (String × GTypeInfo × String))
    (heq : do_method_args method.args 0 = some (ins, outs)) :
    ∃ tail,
      do_method prefix_lc iface method = some (
        ["gboolean " ++ (prefix_lc ++ "_" ++ py_lower iface ++ "_block_on_"
            ++ camelcase_to_lower method.name) ++ " (gpointer *proxy,"]
          ++ ins.map (fun e =>
              "    " ++ (if e.2.1.pointer then "const " else "") ++ e.2.1.ctype ++ e.1 ++ ",")
          ++ outs.map (fun e => "    " ++ e.2.1.ctype ++ "*" ++ e.1 ++ ",")
          ++ ["    GError **error);", "", ""],
        ["gboolean\n" ++ (prefix_lc ++ "_" ++ py_lower iface ++ "_block_on_"
            ++ camelcase_to_lower method.name) ++ " (gpointer *proxy,"]
          ++ ins.map (fun e =>
              "    " ++ (if e.2.1.pointer then "const " else "") ++ e.2.1.ctype ++ e.1 ++ ",")
          ++ outs.map (fun e => "    " ++ e.2.1.ctype ++ "*" ++ e.1 ++ ",")
          ++ ("    GError **error)" :: tail)) := by
  refine ⟨["\x7b",
      "  DBusGProxy *iface = tp_proxy_get_interface (",
      "      TP_PROXY (proxy),",
      "      TP_IFACE_QUARK_" ++ py_upper (py_lower iface) ++ ",",
      "      error);",
      "",
      "  if (iface == NULL)",
      "    return FALSE;",
      "",
      "  return dbus_g_proxy_call (iface, \"" ++ method.name ++ "\", error,",
      "      /* in arguments */"]
      ++ ins.map (fun e => "      " ++ e.2.1.gtype ++ ", " ++ e.1 ++ ",")
      ++ ["      G_TYPE_INVALID,", "      /* out arguments */"]
      ++ outs.map (fun e => "      " ++ e.2.1.gtype ++ ", " ++ e.1 ++ ",")
      ++ ["      G_TYPE_INVALID);", "\x7d", "", ""], ?_⟩
  simp only [do_method, heq]
  simp [List.append_assoc]

theorem claim_C6_param_shape_witness :
    ∃ tail,
      do_method "prefix" "Example"
          ⟨"DoThing", [⟨"value", "in", "i", ""⟩, ⟨"", "out", "s", ""⟩]⟩ = some (
        ["gboolean " ++ ("prefix" ++ "_" ++ py_lower "Example" ++ "_block_on_"
            ++ camelcase_to_lower "DoThing") ++ " (gpointer *proxy,"]
          ++ ([("in_value", (⟨"gint ", "G_TYPE_INT", "INT", false⟩ : GTypeInfo), "")] :
              List (String × GTypeInfo × String)).map (fun e =>
              "    " ++ (if e.2.1.pointer then "const " else "") ++ e.2.1.ctype ++ e.1 ++ ",")
          ++ ([("out0", (⟨"gchar *", "G_TYPE_STRING", "STRING", true⟩ : GTypeInfo), "")] :
              List (String × GTypeInfo × String)).map
              (fun e => "    " ++ e.2.1.ctype ++ "*" ++ e.1 ++ ",")
          ++ ["    GError **error);", "", ""],
        ["gboolean\n" ++ ("prefix" ++ "_" ++ py_lower "Example" ++ "_block_on_"
            ++ camelcase_to_lower "DoThing") ++ " (gpointer *proxy,"]
          ++ ([("in_value", (⟨"gint ", "G_TYPE_INT", "INT", false⟩ : GTypeInfo), "")] :
              List (String × GTypeInfo × String)).map (fun e =>
              "    " ++ (if e.2.1.pointer then "const " else "") ++ e.2.1.ctype ++ e.1 ++ ",")
          ++ ([("out0", (⟨"gchar *", "G_TYPE_STRING", "STRING", true⟩ : GTypeInfo), "")] :
              List (String × GTypeInfo × String)).map
              (fun e => "    " ++ e.2.1.ctype ++ "*" ++ e.1 ++ ",")
          ++ ("    GError **error)" :: tail)) :=
  claim_C6_param_shape "prefix" "Example"
    ⟨"DoThing", [⟨"value", "in", "i", ""⟩, ⟨"", "out", "s", ""⟩]⟩
    [("in_value", ⟨"gint ", "G_TYPE_INT", "INT", false⟩, "")]
    [("out0", ⟨"gchar *", "G_TYPE_STRING", "STRING", true⟩, "")]
    (by decide)

/-- Claim C7: the emitted stub body resolves the proxy handle for the
specific interface, returns FALSE immediately when resolution yields
NULL, and otherwise returns unchanged the result of the positional call
issued with the method's original schema name (not the normalized
lower-snake name) as the wire selector. -/
theorem claim_C7_body_behaviour (prefix_lc iface : String) (method : MethodXml)
    (ins outs : List (String × GTypeInfo × String))
    (heq : do_method_args method.args 0 = some (ins, outs)) :
    ∃ hdr, do_method prefix_lc iface method = some (hdr,
      ["gboolean\n" ++ (prefix_lc ++ "_" ++ py_lower iface ++ "_block_on_"
          ++ camelcase_to_lower method.name) ++ " (gpointer *proxy,"]
        ++ ins.map (fun e =>
            "    " ++ (if e.2.1.pointer then "const " else "") ++ e.2.1.ctype ++ e.1 ++ ",")
        ++ outs.map (fun e => "    " ++ e.2.1.ctype ++ "*" ++ e.1 ++ ",")
        ++ ["    GError **error)",
            "\x7b",
            "  DBusGProxy *iface = tp_proxy_get_interface (",
            "      TP_PROXY (proxy),",
            "      TP_IFACE_QUARK_" ++ py_upper (py_lower iface) ++ ",",
            "      error);",
            "",
            "  if (iface == NULL)",
            "    return FALSE;",
            "",
            "  return dbus_g_proxy_call (iface, \"" ++ method.name ++ "\", error,",
            "      /* in arguments */"]
        ++ ins.map (fun e => "      " ++ e.2.1.gtype ++ ", " ++ e.1 ++ ",")
        ++ ["      G_TYPE_INVALID,", "      /* out arguments */"]
        ++ outs.map (fun e => "      " ++ e.2.1.gtype ++ ", " ++ e.1 ++ ",")
        ++ ["      G_TYPE_INVALID);", "\x7d", "", ""]) := by
  refine ⟨["gboolean " ++ (prefix_lc ++ "_" ++ py_lower iface ++ "_block_on_"
      ++ camelcase_to_lower method.name) ++ " (gpointer *proxy,"]
      ++ ins.map (fun e =>
          "    " ++ (if e.2.1.pointer then "const " else "") ++ e.2.1.ctype ++ e.1 ++ ",")
      ++ outs.map (fun e => "    " ++ e.2.1.ctype ++ "*" ++ e.1 ++ ",")
      ++ ["    GError **error);", "", ""], ?_⟩
  simp only [do_method, heq]

theorem claim_C7_body_behaviour_witness :
    ∃ hdr, do_method "prefix" "Example" ⟨"Ping", []⟩ = some (hdr,
      ["gboolean\n" ++ ("prefix" ++ "_" ++ py_lower "Example" ++ "_block_on_"
          ++ camelcase_to_lower "Ping") ++ " (gpointer *proxy,"]
        ++ ([] : List (String × GTypeInfo × String)).map (fun e =>
            "    " ++ (if e.2.1.pointer then "const " else "") ++ e.2.1.ctype ++ e.1 ++ ",")
        ++ ([] : List (String × GTypeInfo × String)).map
            (fun e => "    " ++ e.2.1.ctype ++ "*" ++ e.1 ++ ",")
        ++ ["    GError **error)",
            "\x7b",
            "  DBusGProxy *iface = tp_proxy_get_interface (",
            "      TP_PROXY (proxy),",
            "      TP_IFACE_QUARK_" ++ py_upper (py_lower "Example") ++ ",",
            "      error);",
            "",
            "  if (iface == NULL)",
            "    return FALSE;",
            "",
            "  return dbus_g_proxy_call (iface, \"" ++ "Ping" ++ "\", error,",
            "      /* in arguments */"]
        ++ ([] : List (String × GTypeInfo × String)).map
            (fun e => "      " ++ e.2.1.gtype ++ ", " ++ e.1 ++ ",")
        ++ ["      G_TYPE_INVALID,", "      /* out arguments */"]
        ++ ([] : List (String × GTypeInfo × String)).map
            (fun e => "      " ++ e.2.1.gtype ++ ", " ++ e.1 ++ ",")
        ++ ["      G_TYPE_INVALID);", "\x7d", "", ""]) :=
  claim_C7_body_behaviour "prefix" "Example" ⟨"Ping", []⟩ [] [] (by decide)

/-- Claim C5: each out-argument with an empty name is assigned the
synthesized name `out` + ordinal, the ordinal being the 0-based count of
unnamed out-arguments preceding it within the same method (named
out-arguments get `out_` + name and do not advance the counter), and the
ordinals of two unnamed out-arguments at different positions never
collide. -/
theorem claim_C5_unnamed_out_numbering (l : List ArgXml)
    (ins outs : List (String × GTypeInfo × String))
    (h : ∀ a ∈ l, (type_to_gtype a.type).isSome)
    (heq : do_method_args l 0 = some (ins, outs)) :
    outs.length = (l.filter (fun x => x.direction == "out")).length ∧
    (∀ (i : Nat) (a : ArgXml),
      (l.filter (fun x => x.direction == "out")).get? i = some a →
      outs.get? i = some (if a.name = "" then
          ("out" ++ Nat.repr
            ((((l.filter (fun x => x.direction == "out")).take i).filter
              (fun x => x.name == "")).length),
            arg_info a, a.tp_type)
        else ("out_" ++ a.name, arg_info a, a.tp_type))) ∧
    (∀ (i j : Nat) (a : ArgXml), i < j →
      (l.filter (fun x => x.direction == "out")).get? i = some a → a.name = "" →
      (((l.filter (fun x => x.direction == "out")).take i).filter
        (fun x => x.name == "")).length <
      (((l.filter (fun x => x.direction == "out")).take j).filter
        (fun x => x.name == "")).length) := by
  rw [do_method_args_split l 0 h] at heq
  have houts : outs = out_spec l 0 :=
    (congrArg Prod.snd (Option.some.inj heq)).symm
  have hfd : ∀ x ∈ l.filter (fun x => x.direction == "out"), x.direction = "out" :=
    fun x hx => by simpa using (List.mem_filter.mp hx).2
  refine ⟨?_, ?_, ?_⟩
  · rw [houts, out_spec_filter l 0]
    exact out_spec_length _ 0 hfd
  · intro i a hget
    rw [houts, out_spec_filter l 0]
    have hpt := out_spec_get? (l.filter (fun x => x.direction == "out")) hfd 0 i a hget
    simpa using hpt
  · intro i j a hij hget hname
    exact filter_take_lt (fun x => x.name == "") _ i j hij a hget (by simp [hname])

theorem claim_C5_unnamed_out_numbering_witness :
    ([("out0", (⟨"guint ", "G_TYPE_UINT", "UINT", false⟩ : GTypeInfo), ""),
      ("out1", (⟨"gchar *", "G_TYPE_STRING", "STRING", true⟩ : GTypeInfo), "")] :
        List (String × GTypeInfo × String)).length =
      (([⟨"", "out", "u", ""⟩, ⟨"", "out", "s", ""⟩] : List ArgXml).filter
        (fun x => x.direction == "out")).length ∧
    ([("out0", (⟨"guint ", "G_TYPE_UINT", "UINT", false⟩ : GTypeInfo), ""),
      ("out1", (⟨"gchar *", "G_TYPE_STRING", "STRING", true⟩ : GTypeInfo), "")] :
        List (String × GTypeInfo × String)).get? 0 =
      some ("out0", ⟨"guint ", "G_TYPE_UINT", "UINT", false⟩, "") ∧
    ([("out0", (⟨"guint ", "G_TYPE_UINT", "UINT", false⟩ : GTypeInfo), ""),
      ("out1", (⟨"gchar *", "G_TYPE_STRING", "STRING", true⟩ : GTypeInfo), "")] :
        List (String × GTypeInfo × String)).get? 1 =
      some ("out1", ⟨"gchar *", "G_TYPE_STRING", "STRING", true⟩, "") ∧
    ((((([⟨"", "out", "u", ""⟩, ⟨"", "out", "s", ""⟩] : List ArgXml).filter
        (fun x => x.direction == "out")).take 0).filter
        (fun x => x.name == "")).length <
      (((([⟨"", "out", "u", ""⟩, ⟨"", "out", "s", ""⟩] : List ArgXml).filter
        (fun x => x.direction == "out")).take 1).filter
        (fun x => x.name == "")).length) := by
  have h := claim_C5_unnamed_out_numbering
    [⟨"", "out", "u", ""⟩, ⟨"", "out", "s", ""⟩]
    []
    [("out0", ⟨"guint ", "G_TYPE_UINT", "UINT", false⟩, ""),
     ("out1", ⟨"gchar *", "G_TYPE_STRING", "STRING", true⟩, "")]
    (by decide) (by decide)
  exact ⟨h.1,
    (h.2.1 0 ⟨"", "out", "u", ""⟩ (by decide)).trans (by decide),
    (h.2.1 1 ⟨"", "out", "s", ""⟩ (by decide)).trans (by decide),
    h.2.2 0 1 ⟨"", "out", "u", ""⟩ (by decide) (by decide) (by decide)⟩

/-- Claim C3, counterexample: the claim that applying any permutation to
the schema's argument order applies the identical permutation to the
generated call payload fails at a method whose arguments mix directions:
swapping an in-argument with an out-argument leaves the emitted payload
unchanged (the payload always groups in-arguments before out-arguments),
while the identically permuted payload would be swapped. -/
theorem claim_C3_payload_perm_counterexample :
    ¬ (call_payload (applyPerm [1, 0] [⟨"x", "", "u", ""⟩, ⟨"y", "out", "s", ""⟩]) =
      (call_payload [⟨"x", "", "u", ""⟩, ⟨"y", "out", "s", ""⟩]).map
        (applyPerm [1, 0])) := by
  decide

/-- Claim C3, amended: the generated call payload lists all
in-arguments in schema declaration order, then the end-of-input
sentinel, then all out-arguments in schema declaration order, then the
end-of-output sentinel; a permutation applied within the in-argument
group applies identically to the payload's in-block, and one applied
within a group of named out-arguments applies identically to the
payload's out-block (the blocks never mix, and unnamed out-arguments
are excluded because their `out` + ordinal names are reassigned by
position). -/
theorem claim_C3_payload_order_amended (ins outs : List ArgXml)
    (sigma tau : List Nat)
    (hres : ∀ a ∈ ins ++ outs, (type_to_gtype a.type).isSome)
    (hin : ∀ a ∈ ins, a.direction ≠ "out")
    (hout : ∀ a ∈ outs, a.direction = "out" ∧ a.name ≠ "") :
    call_payload (ins ++ outs) =
      some (ins.map (fun a => ((arg_info a).gtype, "in_" ++ a.name))
        ++ outs.map (fun a => ((arg_info a).gtype, "out_" ++ a.name))) ∧
    call_payload (applyPerm sigma ins ++ applyPerm tau outs) =
      some (applyPerm sigma (ins.map (fun a => ((arg_info a).gtype, "in_" ++ a.name)))
        ++ applyPerm tau (outs.map (fun a => ((arg_info a).gtype, "out_" ++ a.name)))) := by
  constructor
  · exact call_payload_split ins outs hres hin hout
  · have hres' : ∀ a ∈ applyPerm sigma ins ++ applyPerm tau outs,
        (type_to_gtype a.type).isSome := by
      intro a ha
      rcases List.mem_append.mp ha with hmem | hmem
      · exact hres a (List.mem_append.mpr (Or.inl (mem_applyPerm hmem)))
      · exact hres a (List.mem_append.mpr (Or.inr (mem_applyPerm hmem)))
    have hin' : ∀ a ∈ applyPerm sigma ins, a.direction ≠ "out" :=
      fun a ha => hin a (mem_applyPerm ha)
    have hout' : ∀ a ∈ applyPerm tau outs, a.direction = "out" ∧ a.name ≠ "" :=
      fun a ha => hout a (mem_applyPerm ha)
    rw [call_payload_split (applyPerm sigma ins) (applyPerm tau outs) hres' hin' hout']
    rw [applyPerm_map, applyPerm_map]

theorem claim_C3_payload_order_amended_witness :
    call_payload (([⟨"a", "in", "i", ""⟩, ⟨"b", "in", "u", ""⟩] : List ArgXml)
        ++ [⟨"c", "out", "s", ""⟩]) =
      some [("G_TYPE_INT", "in_a"), ("G_TYPE_UINT", "in_b"), ("G_TYPE_STRING", "out_c")] ∧
    call_payload (applyPerm [1, 0] ([⟨"a", "in", "i", ""⟩, ⟨"b", "in", "u", ""⟩] : List ArgXml)
        ++ applyPerm [0] [⟨"c", "out", "s", ""⟩]) =
      some [("G_TYPE_UINT", "in_b"), ("G_TYPE_INT", "in_a"), ("G_TYPE_STRING", "out_c")] := by
  have h := claim_C3_payload_order_amended
    [⟨"a", "in", "i", ""⟩, ⟨"b", "in", "u", ""⟩] [⟨"c", "out", "s", ""⟩]
    [1, 0] [0] (by decide) (by decide) (by decide)
  exact ⟨h.1.trans (by decide), h.2.trans (by decide)⟩

/-- Claim C8, counterexample: the inline signal-registration function is
not received by both artifacts — for a schema with one interface holding
one signal and one method, the opening line of the static-inline
registration function appears in the emitted header buffer and nowhere
in the emitted body buffer (the body merely includes the header by
basename). -/
theorem claim_C8_inline_in_body_counterexample :
    "static inline void" ∈
      (generate ⟨[⟨"Example", [⟨[⟨"Changed", [⟨"p", "", "u", ""⟩]⟩], [⟨"Ping", []⟩]⟩]⟩]⟩
        "prefix" "basename").elim [] Prod.fst ∧
    "static inline void" ∉
      (generate ⟨[⟨"Example", [⟨[⟨"Changed", [⟨"p", "", "u", ""⟩]⟩], [⟨"Ping", []⟩]⟩]⟩]⟩
        "prefix" "basename").elim [] Prod.snd := by
  decide

/-- Claim C8, amended: for every interface exactly one static-inline
registration function is emitted, which registers, for every signal of
the interface in order, the signal's name followed by the ordered
resolved marshalling tags of its arguments and the no-more-argument-
types sentinel; the function is emitted into the header artifact only,
the body artifact receiving just the per-method stub bodies (it sees
the registration helper through the header include emitted at the top
of the body). -/
theorem claim_C8_signal_registration_amended (p : String) (node : NodeXml)
    (hd bd : List String) (h : do_interface p node = some (hd, bd)) :
    ∃ sig_blocks method_pairs,
      (node_signals node).mapM do_signal_add = some sig_blocks ∧
      (node_methods node).mapM (do_method p (py_replace_slash node.name)) =
        some method_pairs ∧
      hd = ["static inline void",
            p ++ "_add_signals_for_" ++ py_lower (py_replace_slash node.name)
              ++ " (DBusGProxy *proxy)",
            "\x7b"]
          ++ sig_blocks.flatten ++ ["\x7d", "", ""]
          ++ (method_pairs.map Prod.fst).flatten ∧
      bd = (method_pairs.map Prod.snd).flatten ∧
      ∀ s ∈ node_signals node, ∀ blk, do_signal_add s = some blk →
        ∃ infos, s.args.mapM (fun a => type_to_gtype a.type) = some infos ∧
          blk = ("  dbus_g_proxy_add_signal (proxy, \"" ++ s.name ++ "\",")
            :: (infos.map (fun info => "      " ++ info.gtype ++ ",")
              ++ ["      G_TYPE_INVALID);"]) := by
  by_cases hlen : node.interfaces.length = 1
  · rw [do_interface, if_pos hlen] at h
    cases hsig : (node_signals node).mapM do_signal_add with
    | none =>
        rw [hsig] at h
        exact absurd h (by simp)
    | some sig_blocks =>
        simp only [hsig] at h
        cases hmeth : (node_methods node).mapM (do_method p (py_replace_slash node.name)) with
        | none =>
            rw [hmeth] at h
            exact absurd h (by simp)
        | some method_pairs =>
            rw [hmeth] at h
            have hpair := Option.some.inj h
            refine ⟨sig_blocks, method_pairs, rfl, rfl,
              (congrArg Prod.fst hpair).symm, (congrArg Prod.snd hpair).symm, ?_⟩
            intro s hs blk hblk
            unfold do_signal_add at hblk
            cases hmap : s.args.mapM (fun a => type_to_gtype a.type) with
            | none =>
                rw [hmap] at hblk
                exact absurd hblk (by simp)
            | some infos =>
                rw [hmap] at hblk
                exact ⟨infos, rfl, (Option.some.inj hblk).symm⟩
  · rw [do_interface, if_neg hlen] at h
    exact absurd h (by simp)

theorem claim_C8_signal_registration_amended_witness :
    ∃ sig_blocks method_pairs,
      (node_signals ⟨"Example", [⟨[⟨"Changed", [⟨"p", "", "u", ""⟩]⟩], []⟩]⟩).mapM
        do_signal_add = some sig_blocks ∧
      (node_methods ⟨"Example", [⟨[⟨"Changed", [⟨"p", "", "u", ""⟩]⟩], []⟩]⟩).mapM
        (do_method "prefix"
          (py_replace_slash (NodeXml.name ⟨"Example", [⟨[⟨"Changed", [⟨"p", "", "u", ""⟩]⟩], []⟩]⟩))) =
        some method_pairs ∧
      ["static inline void",
       "prefix_add_signals_for_example (DBusGProxy *proxy)",
       "\x7b",
       "  dbus_g_proxy_add_signal (proxy, \"Changed\",",
       "      G_TYPE_UINT,",
       "      G_TYPE_INVALID);",
       "\x7d", "", ""] =
        ["static inline void",
         "prefix" ++ "_add_signals_for_"
           ++ py_lower (py_replace_slash (NodeXml.name ⟨"Example", [⟨[⟨"Changed", [⟨"p", "", "u", ""⟩]⟩], []⟩]⟩))
           ++ " (DBusGProxy *proxy)",
         "\x7b"]
          ++ sig_blocks.flatten ++ ["\x7d", "", ""]
          ++ (method_pairs.map Prod.fst).flatten ∧
      ([] : List String) = (method_pairs.map Prod.snd).flatten ∧
      ∀ s ∈ node_signals ⟨"Example", [⟨[⟨"Changed", [⟨"p", "", "u", ""⟩]⟩], []⟩]⟩,
        ∀ blk, do_signal_add s = some blk →
        ∃ infos, s.args.mapM (fun a => type_to_gtype a.type) = some infos ∧
          blk = ("  dbus_g_proxy_add_signal (proxy, \"" ++ s.name ++ "\",")
            :: (infos.map (fun info => "      " ++ info.gtype ++ ",")
              ++ ["      G_TYPE_INVALID);"]) :=
  claim_C8_signal_registration_amended "prefix"
    ⟨"Example", [⟨[⟨"Changed", [⟨"p", "", "u", ""⟩]⟩], []⟩]⟩
    ["static inline void",
     "prefix_add_signals_for_example (DBusGProxy *proxy)",
     "\x7b",
     "  dbus_g_proxy_add_signal (proxy, \"Changed\",",
     "      G_TYPE_UINT,",
     "      G_TYPE_INVALID);",
     "\x7d", "", ""]
    []
    (by decide)

/-- Claim C4, counterexample: the end-to-end scenario's declaration is
not named `prefix_example_block_on_dothing` — the normalizer maps the
CamelCase member DoThing to lower_snake `do_thing`, so the emitted
header contains the `block_on_do_thing` declaration line and no
`block_on_dothing` line. -/
theorem claim_C4_dothing_counterexample :
    "gboolean prefix_example_block_on_do_thing (gpointer *proxy," ∈
      (generate ⟨[⟨"Example", [⟨[], [⟨"DoThing",
          [⟨"value", "in", "i", ""⟩, ⟨"", "out", "s", ""⟩]⟩]⟩]⟩]⟩
        "prefix" "basename").elim [] Prod.fst ∧
    "gboolean prefix_example_block_on_dothing (gpointer *proxy," ∉
      (generate ⟨[⟨"Example", [⟨[], [⟨"DoThing",
          [⟨"value", "in", "i", ""⟩, ⟨"", "out", "s", ""⟩]⟩]⟩]⟩]⟩
        "prefix" "basename").elim [] Prod.fst := by
  decide

/-- Claim C4, amended: a schema with one interface Example containing
one method DoThing with in-argument (name value, type int32 = i) and
out-argument (empty name, type string = s) yields a registration helper
naming interface example and a declaration shaped
`prefix_example_block_on_do_thing (gint in_value, gchar **out0,
GError **error)` with types per the mapping table — the full emitted
header and body line buffers are exactly these. -/
theorem claim_C4_end_to_end_amended :
    generate ⟨[⟨"Example", [⟨[], [⟨"DoThing",
        [⟨"value", "in", "i", ""⟩, ⟨"", "out", "s", ""⟩]⟩]⟩]⟩]⟩
      "prefix" "basename" =
    some (["#include <dbus/dbus-glib.h>",
           "#include <telepathy-glib/proxy.h>",
           "#include <telepathy-glib/interfaces.h>",
           "",
           "static inline void",
           "prefix_add_signals_for_example (DBusGProxy *proxy)",
           "\x7b",
           "\x7d",
           "",
           "",
           "gboolean prefix_example_block_on_do_thing (gpointer *proxy,",
           "    gint in_value,",
           "    gchar **out0,",
           "    GError **error);",
           "",
           ""],
          ["#include \"basename.h\"",
           "",
           "gboolean\nprefix_example_block_on_do_thing (gpointer *proxy,",
           "    gint in_value,",
           "    gchar **out0,",
           "    GError **error)",
           "\x7b",
           "  DBusGProxy *iface = tp_proxy_get_interface (",
           "      TP_PROXY (proxy),",
           "      TP_IFACE_QUARK_EXAMPLE,",
           "      error);",
           "",
           "  if (iface == NULL)",
           "    return FALSE;",
           "",
           "  return dbus_g_proxy_call (iface, \"DoThing\", error,",
           "      /* in arguments */",
           "      G_TYPE_INT, in_value,",
           "      G_TYPE_INVALID,",
           "      /* out arguments */",
           "      G_TYPE_STRING, out0,",
           "      G_TYPE_INVALID);",
           "\x7d",
           "",
           ""]) := by
  decide
